import Mathlib

/-!
Verification development for the identity-propagation and streaming-relay
layer of the department chat website.

The repository snapshot contains the frontend chat page
(src/frontend/app/page.tsx) and the project documentation (src/PLAN.md).
The backend components described by the specification (Identity Resolver,
Token Issuer and Verifier, Relay Session, Session Registry; directory
backend/app in the documented project layout) are not part of the snapshot,
so those components are modelled from the specification text, as marked on
each such definition. The frontend definitions are read off the source of
src/frontend/app/page.tsx.
-/

namespace DeptSite

/-- Trust mode under which an identity was established (specification
section 3, field issuedVia of Identity). -/
inductive IssuedVia where
  | Certificate
  | DevOverride
deriving DecidableEq, Repr

/-- Modelled from the spec: the Identity record of section 3; the backend
auth middleware that materialises it (backend/app/auth/middleware.py in the
documented layout) is not in the repository snapshot. -/
structure Identity where
  subject : String
  displayName : Option String
  issuedVia : IssuedVia
deriving DecidableEq, Repr

/-- Modelled from the spec: the AuthError taxonomy of section 7. -/
inductive AuthError where
  | MissingIdentity
  | ModeMismatch
  | BadSignature
  | Expired
deriving DecidableEq, Repr

/-- Modelled from the spec: the signature the Token Issuer computes over the
non-signature claim fields together with the process-wide secret
(section 4.2). The concrete MAC construction is absent from the snapshot;
it is abstracted as the tuple of its inputs, an ideal collision-free MAC. -/
structure Signature where
  secret : Nat
  subject : String
  issuedVia : IssuedVia
  issuedAt : Nat
  expiresAt : Nat
deriving DecidableEq, Repr

/-- Modelled from the spec: computing the signature over the remaining
fields of the Assertion using the process-wide secret (section 4.2). -/
def sign (secret : Nat) (subject : String) (via : IssuedVia)
    (issuedAt expiresAt : Nat) : Signature :=
  ⟨secret, subject, via, issuedAt, expiresAt⟩

/-- Modelled from the spec: the Assertion (token) record of section 3. -/
structure Assertion where
  subject : String
  issuedVia : IssuedVia
  issuedAt : Nat
  expiresAt : Nat
  signature : Signature
deriving DecidableEq, Repr

/-- Modelled from the spec: Token Issuer (section 4.2). Issuance sets
issuedAt to now, expiresAt to now plus the fixed TTL, and signs the
remaining fields with the process-wide secret. -/
def issue (secret ttl : Nat) (idn : Identity) (now : Nat) : Assertion :=
  { subject := idn.subject
    issuedVia := idn.issuedVia
    issuedAt := now
    expiresAt := now + ttl
    signature := sign secret idn.subject idn.issuedVia now (now + ttl) }

/-- Modelled from the spec: Token Verifier (section 4.2). Verification
recomputes and compares the signature, failing with BadSignature on
mismatch, then fails with Expired when now is later than expiresAt;
the signature comparison is listed first in section 4.2 and standard JWT
verifiers check the signature before the expiry claim. -/
def verify (secret : Nat) (a : Assertion) (now : Nat) : Except AuthError Identity :=
  if a.signature ≠ sign secret a.subject a.issuedVia a.issuedAt a.expiresAt then
    .error .BadSignature
  else if now > a.expiresAt then
    .error .Expired
  else
    .ok { subject := a.subject, displayName := none, issuedVia := a.issuedVia }

/-- Modelled from the spec: the trust-mode configuration of section 4.1;
exactly one mode is active per process configuration. -/
inductive AuthMode where
  | TrustedCertificate
  | DevelopmentOverride
deriving DecidableEq, Repr

/-- Modelled from the spec: the identity signals an inbound request can
carry (sections 4.1 and 6): a pre-validated certificate subject, and the
development-override signal (a header or query parameter carrying a bare
subject string). -/
structure InboundRequest where
  certSubject : Option String
  overrideSubject : Option String
deriving DecidableEq, Repr

/-- Modelled from the spec: the Identity Resolver of section 4.1; its
backend implementation is not in the repository snapshot. In
development-override mode the subject comes from the override signal and
issuedVia is DevOverride; missing signal is MissingIdentity. In
trusted-certificate mode an override signal is rejected with ModeMismatch,
otherwise the subject comes from the pre-validated certificate context and
issuedVia is Certificate; missing context is MissingIdentity. -/
def resolveIdentity (mode : AuthMode) (req : InboundRequest) :
    Except AuthError Identity :=
  match mode with
  | .DevelopmentOverride =>
    match req.overrideSubject with
    | some u => .ok ⟨u, none, .DevOverride⟩
    | none => .error .MissingIdentity
  | .TrustedCertificate =>
    if req.overrideSubject.isSome then .error .ModeMismatch
    else
      match req.certSubject with
      | some s => .ok ⟨s, none, .Certificate⟩
      | none => .error .MissingIdentity

/-- From src/frontend/app/page.tsx lines 17 and 31-39: the mockUser React
state starts as the empty string and is overwritten with the mockUser URL
parameter only when that parameter is truthy in JavaScript, that is,
present and not the empty string. -/
def mockUserState (userParam : Option String) : String :=
  match userParam with
  | some u => if u = "" then "" else u
  | none => ""

/-- From src/frontend/app/page.tsx line 79: the X-Mock-User request header
sent by sendMessage is the JavaScript or-else of the mockUser state and
the literal anonymous@dept.gov, so the literal is used exactly when the
state is the falsy empty string. -/
def mockUserHeader (userParam : Option String) : String :=
  if mockUserState userParam = "" then "anonymous@dept.gov"
  else mockUserState userParam

/-- C1: for every resolved Identity, issuing an Assertion and then
verifying it (at any time not later than the expiry) succeeds, and the
Identity returned by verify has the same subject as the original
Identity. -/
theorem C1_issue_verify_round_trip (secret ttl : Nat) (idn : Identity)
    (now now' : Nat) (h : now' ≤ now + ttl) :
    verify secret (issue secret ttl idn now) now' =
      .ok { subject := idn.subject, displayName := none, issuedVia := idn.issuedVia } := by
  simp [verify, issue, sign]
  omega

/-- C1 witness: the round trip evaluated at a concrete identity, secret,
TTL and verification time. -/
theorem C1_issue_verify_round_trip_witness :
    verify 7 (issue 7 5 ⟨"john.doe@dept.gov", none, IssuedVia.DevOverride⟩ 10) 12 =
      .ok ⟨"john.doe@dept.gov", none, IssuedVia.DevOverride⟩ :=
  C1_issue_verify_round_trip 7 5 ⟨"john.doe@dept.gov", none, IssuedVia.DevOverride⟩ 10 12
    (by decide)

/-- C2: for every Assertion produced by issue, mutating any single field
(subject, issuedVia, issuedAt, expiresAt, or signature) to a different
value makes verify fail with BadSignature, at every verification time. -/
theorem C2_mutation_invalidates (secret ttl : Nat) (idn : Identity) (now now' : Nat) :
    (∀ s, s ≠ idn.subject →
      verify secret { issue secret ttl idn now with subject := s } now' =
        .error .BadSignature) ∧
    (∀ v, v ≠ idn.issuedVia →
      verify secret { issue secret ttl idn now with issuedVia := v } now' =
        .error .BadSignature) ∧
    (∀ t, t ≠ now →
      verify secret { issue secret ttl idn now with issuedAt := t } now' =
        .error .BadSignature) ∧
    (∀ t, t ≠ now + ttl →
      verify secret { issue secret ttl idn now with expiresAt := t } now' =
        .error .BadSignature) ∧
    (∀ sg, sg ≠ (issue secret ttl idn now).signature →
      verify secret { issue secret ttl idn now with signature := sg } now' =
        .error .BadSignature) := by
  refine ⟨fun s hs => ?_, fun v hv => ?_, fun t ht => ?_, fun t ht => ?_, fun sg hsg => ?_⟩ <;>
      simp_all [verify, issue, sign, Signature.mk.injEq] <;>
    (intro h; simp_all)

/-- C2 witness: each of the five single-field mutations evaluated at a
concrete issued Assertion. -/
theorem C2_mutation_invalidates_witness :
    (verify 7 { issue 7 5 ⟨"a@dept.gov", none, IssuedVia.Certificate⟩ 10 with
        subject := "b@dept.gov" } 12 = .error .BadSignature) ∧
    (verify 7 { issue 7 5 ⟨"a@dept.gov", none, IssuedVia.Certificate⟩ 10 with
        issuedVia := IssuedVia.DevOverride } 12 = .error .BadSignature) ∧
    (verify 7 { issue 7 5 ⟨"a@dept.gov", none, IssuedVia.Certificate⟩ 10 with
        issuedAt := 11 } 12 = .error .BadSignature) ∧
    (verify 7 { issue 7 5 ⟨"a@dept.gov", none, IssuedVia.Certificate⟩ 10 with
        expiresAt := 99 } 12 = .error .BadSignature) ∧
    (verify 7 { issue 7 5 ⟨"a@dept.gov", none, IssuedVia.Certificate⟩ 10 with
        signature := sign 8 "a@dept.gov" IssuedVia.Certificate 10 15 } 12 =
      .error .BadSignature) :=
  ⟨(C2_mutation_invalidates 7 5 ⟨"a@dept.gov", none, IssuedVia.Certificate⟩ 10 12).1
      "b@dept.gov" (by decide),
   (C2_mutation_invalidates 7 5 ⟨"a@dept.gov", none, IssuedVia.Certificate⟩ 10 12).2.1
      IssuedVia.DevOverride (by decide),
   (C2_mutation_invalidates 7 5 ⟨"a@dept.gov", none, IssuedVia.Certificate⟩ 10 12).2.2.1
      11 (by decide),
   (C2_mutation_invalidates 7 5 ⟨"a@dept.gov", none, IssuedVia.Certificate⟩ 10 12).2.2.2.1
      99 (by decide),
   (C2_mutation_invalidates 7 5 ⟨"a@dept.gov", none, IssuedVia.Certificate⟩ 10 12).2.2.2.2
      (sign 8 "a@dept.gov" IssuedVia.Certificate 10 15) (by decide)⟩

/-- C3 counterexample: an Assertion whose expiresAt lies in the past but
whose signature does not validate fails verify with BadSignature, not
Expired, so expiry does not take effect regardless of signature
validity. The Assertion below is signed under secret 1 but verified under
secret 0, and has expiresAt 1 with verification time 2. -/
theorem C3_counterexample :
    verify 0 ⟨"a@dept.gov", IssuedVia.Certificate, 0, 1,
        sign 1 "a@dept.gov" IssuedVia.Certificate 0 1⟩ 2 =
      .error AuthError.BadSignature ∧
    AuthError.BadSignature ≠ AuthError.Expired := by
  constructor
  · rfl
  · decide

/-- C3 amended: every Assertion whose signature validates and whose
expiresAt lies in the past at verification time fails verify with
Expired; for valid signatures, expiry is enforced no matter how the
Assertion was produced. -/
theorem C3_expired_fails (secret : Nat) (a : Assertion) (now : Nat)
    (hsig : a.signature = sign secret a.subject a.issuedVia a.issuedAt a.expiresAt)
    (hexp : a.expiresAt < now) :
    verify secret a now = .error .Expired := by
  simp [verify, hsig, hexp]

/-- C3 witness: a concrete correctly-signed Assertion past its expiry
fails with Expired. -/
theorem C3_expired_fails_witness :
    verify 7 (issue 7 0 ⟨"a@dept.gov", none, IssuedVia.Certificate⟩ 10) 11 =
      .error .Expired :=
  C3_expired_fails 7 (issue 7 0 ⟨"a@dept.gov", none, IssuedVia.Certificate⟩ 10) 11
    rfl (by decide)

/-- C4: in a process configured for development-override mode, a request
whose identity signal is the header the frontend derives from the URL
parameter mockUser equal to john.doe@dept.gov resolves to exactly one
Identity, with subject john.doe@dept.gov and issuedVia DevOverride. -/
theorem C4_dev_override_resolution :
    resolveIdentity AuthMode.DevelopmentOverride
        ⟨none, some (mockUserHeader (some "john.doe@dept.gov"))⟩ =
      .ok ⟨"john.doe@dept.gov", none, IssuedVia.DevOverride⟩ := by
  rfl

/-- C9 counterexample: when the URL carries the mockUser parameter with
the empty value, a parameter was provided, yet the X-Mock-User header is
the fallback anonymous@dept.gov rather than the provided parameter
value. -/
theorem C9_counterexample :
    mockUserHeader (some "") = "anonymous@dept.gov" ∧
    ("anonymous@dept.gov" : String) ≠ "" := by
  constructor
  · rfl
  · decide

/-- C9 amended: the X-Mock-User header equals the mockUser URL parameter
when a non-empty one was provided, and equals anonymous@dept.gov
otherwise, including when the parameter is present but empty; in every
case the header is non-empty, so the frontend never issues a chat request
with no identity signal present. -/
theorem C9_header_never_empty (p : Option String) :
    (∀ u, p = some u → u ≠ "" → mockUserHeader p = u) ∧
    (p = none → mockUserHeader p = "anonymous@dept.gov") ∧
    (p = some "" → mockUserHeader p = "anonymous@dept.gov") ∧
    mockUserHeader p ≠ "" := by
  refine ⟨fun u hu hne => ?_, fun h => ?_, fun h => ?_, ?_⟩
  · subst hu
    simp [mockUserHeader, mockUserState, hne]
  · subst h
    rfl
  · subst h
    rfl
  · match p with
    | none => decide
    | some u =>
      by_cases hu : u = "" <;> simp [mockUserHeader, mockUserState, hu]

/-- C9 witness: the header evaluated at a provided non-empty parameter, a
missing parameter, and a provided empty parameter. -/
theorem C9_header_never_empty_witness :
    mockUserHeader (some "jane.roe@dept.gov") = "jane.roe@dept.gov" ∧
    mockUserHeader none = "anonymous@dept.gov" ∧
    mockUserHeader (some "") = "anonymous@dept.gov" ∧
    mockUserHeader (some "jane.roe@dept.gov") ≠ "" :=
  ⟨(C9_header_never_empty (some "jane.roe@dept.gov")).1 "jane.roe@dept.gov" rfl (by decide),
   (C9_header_never_empty none).2.1 rfl,
   (C9_header_never_empty (some "")).2.2.1 rfl,
   (C9_header_never_empty (some "jane.roe@dept.gov")).2.2.2⟩

/-- Modelled from the spec: the Relay Session state machine of
section 4.4. Open means the session is created and the upstream call is
not yet producing output, Streaming means the first fragment was
forwarded; Completed, Cancelled and Failed are the terminal states. -/
inductive SessionState where
  | Open
  | Streaming
  | Completed
  | Cancelled
  | Failed
deriving DecidableEq, Repr

/-- Modelled from the spec: whether a Relay Session state is terminal
(section 4.4). -/
def isTerminal : SessionState → Bool
  | .Completed => true
  | .Cancelled => true
  | .Failed => true
  | _ => false

/-- Modelled from the spec: the downstream events a Relay Session can
emit (sections 4.3 and 6): one content event per forwarded fragment, a
completion sentinel, a cancellation acknowledgment, and an error event
carrying an opaque description. -/
inductive DownEvent where
  | content (s : String)
  | doneSentinel
  | cancelAck
  | errorEvent (msg : String)
deriving DecidableEq, Repr

/-- Modelled from the spec: whether a downstream event is a terminal
signal (completion sentinel, cancellation acknowledgment, or error
event) rather than a content event (sections 4.3 and 7). -/
def isTerminalEvent : DownEvent → Bool
  | .content _ => false
  | _ => true

/-- Modelled from the spec: the items a Relay Session reacts to during one
chat turn (sections 4.3 and 5): an upstream text fragment, upstream
natural completion, an upstream connection error, an upstream unit that
cannot be decoded, and a cancellation signal (consumer disconnect or
explicit cancel by session id). -/
inductive UpstreamItem where
  | fragment (s : String)
  | completed
  | connError
  | malformed
  | cancel
deriving DecidableEq, Repr

/-- Modelled from the spec: one step of the Relay Session (sections 4.3
and 4.4). A fragment is forwarded as one content event and moves the
session to Streaming; natural completion emits the sentinel and moves to
Completed; a cancellation signal emits the acknowledgment and moves to
Cancelled, valid from Open as well as Streaming; a connection error or an
undecodable unit emits one terminal error event and moves to Failed.
Terminal states are absorbing and emit nothing. -/
def relayStep : SessionState → UpstreamItem → SessionState × List DownEvent
  | .Open, .fragment s => (.Streaming, [.content s])
  | .Streaming, .fragment s => (.Streaming, [.content s])
  | .Open, .completed => (.Completed, [.doneSentinel])
  | .Streaming, .completed => (.Completed, [.doneSentinel])
  | .Open, .cancel => (.Cancelled, [.cancelAck])
  | .Streaming, .cancel => (.Cancelled, [.cancelAck])
  | .Open, .connError => (.Failed, [.errorEvent "upstream connection error"])
  | .Streaming, .connError => (.Failed, [.errorEvent "upstream connection error"])
  | .Open, .malformed => (.Failed, [.errorEvent "malformed upstream fragment"])
  | .Streaming, .malformed => (.Failed, [.errorEvent "malformed upstream fragment"])
  | st, _ => (st, [])

/-- Modelled from the spec: running a Relay Session from a state over the
arriving items, collecting the downstream events in order (section 4.3:
each fragment is forwarded as one downstream event, preserving arrival
order exactly). -/
def runItems : SessionState → List UpstreamItem → SessionState × List DownEvent
  | st, [] => (st, [])
  | st, i :: rest =>
    let p := relayStep st i
    let q := runItems p.1 rest
    (q.1, p.2 ++ q.2)

/-- Modelled from the spec: how many times the Session Registry entry of a
session is removed along a run (sections 4.4 and 4.5): the entry is
removed at each step whose pre-state is not terminal and whose post-state
is terminal. -/
def removalCount : SessionState → List UpstreamItem → Nat
  | _, [] => 0
  | st, i :: rest =>
    (if !(isTerminal st) && isTerminal (relayStep st i).1 then 1 else 0)
      + removalCount (relayStep st i).1 rest

/-- Modelled from the spec: the retry policy of section 7 applied to one
chat turn. The upstream behaviours of the first connection attempt and of
the fresh retry connection are given as item lists. A connection error
arriving before anything was forwarded (first item of the first attempt)
is retried exactly once on the fresh connection; in every other case the
first attempt is relayed as it arrives, so a mid-stream connection error
is not retried. The last component counts the retries performed. -/
def relayRun (attempt1 attempt2 : List UpstreamItem) :
    SessionState × List DownEvent × Nat :=
  match attempt1 with
  | .connError :: _ =>
    let r := runItems .Open attempt2
    (r.1, r.2, 1)
  | _ =>
    let r := runItems .Open attempt1
    (r.1, r.2, 0)

/-- A terminal state absorbs every item and emits nothing. -/
theorem relayStep_terminal (st : SessionState) (i : UpstreamItem)
    (h : isTerminal st = true) : relayStep st i = (st, []) := by
  cases st <;> cases i <;> simp_all [isTerminal, relayStep]

/-- A run started in a terminal state stays there and emits nothing. -/
theorem runItems_terminal (items : List UpstreamItem) (st : SessionState)
    (h : isTerminal st = true) : runItems st items = (st, []) := by
  induction items generalizing st with
  | nil => rfl
  | cons i rest ih =>
    simp [runItems, relayStep_terminal st i h, ih st h]

/-- A run over fragments followed by natural completion, started in
Streaming, forwards every fragment in order and ends Completed with the
sentinel last. -/
theorem runItems_fragments_streaming (fs : List String) :
    runItems .Streaming (fs.map .fragment ++ [.completed]) =
      (.Completed, fs.map .content ++ [.doneSentinel]) := by
  induction fs with
  | nil => rfl
  | cons f fs ih => simp [runItems, relayStep, ih]

/-- C5: a Relay Session receiving the fragments Hello and space-there and
then natural completion emits exactly the two content events in arrival
order followed by one completion sentinel and ends Completed; in general,
for every fragment sequence, the downstream events are the content events
in exactly the upstream arrival order followed by the sentinel. -/
theorem C5_stream_order :
    (∀ fs : List String,
      runItems SessionState.Open
          (fs.map UpstreamItem.fragment ++ [UpstreamItem.completed]) =
        (SessionState.Completed,
          fs.map DownEvent.content ++ [DownEvent.doneSentinel])) ∧
    runItems SessionState.Open
        [UpstreamItem.fragment "Hello", UpstreamItem.fragment " there",
          UpstreamItem.completed] =
      (SessionState.Completed,
        [DownEvent.content "Hello", DownEvent.content " there",
          DownEvent.doneSentinel]) := by
  constructor
  · intro fs
    cases fs with
    | nil => rfl
    | cons f fs => simp [runItems, relayStep, runItems_fragments_streaming]
  · rfl

/-- The number of terminal signals emitted along a run is one exactly when
the run starts non-terminal and ends terminal, and zero otherwise. -/
theorem terminal_signal_invariant (items : List UpstreamItem) (st : SessionState) :
    ((runItems st items).2.filter isTerminalEvent).length =
      if !(isTerminal st) && isTerminal (runItems st items).1 then 1 else 0 := by
  induction items generalizing st with
  | nil => simp [runItems]
  | cons i rest ih =>
    cases st <;> cases i <;>
      simp [runItems, relayStep, isTerminal, isTerminalEvent, runItems_terminal, ih]

/-- C6: every Relay Session run that reaches a terminal state has
delivered exactly one terminal signal (completion sentinel, cancellation
acknowledgment, or error event) downstream; no terminal path is a silent
closure. -/
theorem C6_exactly_one_terminal_signal (items : List UpstreamItem)
    (h : isTerminal (runItems SessionState.Open items).1 = true) :
    ((runItems SessionState.Open items).2.filter isTerminalEvent).length = 1 := by
  have hinv := terminal_signal_invariant items SessionState.Open
  rw [h] at hinv
  simpa [isTerminal] using hinv

/-- C6 witness: the run in which the upstream completes immediately
delivers exactly one terminal signal. -/
theorem C6_exactly_one_terminal_signal_witness :
    ((runItems SessionState.Open [UpstreamItem.completed]).2.filter
        isTerminalEvent).length = 1 :=
  C6_exactly_one_terminal_signal [UpstreamItem.completed] rfl

/-- A run started in a terminal state never removes a registry entry. -/
theorem removalCount_terminal (items : List UpstreamItem) (st : SessionState)
    (h : isTerminal st = true) : removalCount st items = 0 := by
  induction items generalizing st with
  | nil => rfl
  | cons i rest ih =>
    simp [removalCount, relayStep_terminal st i h, h, ih st h]

/-- The registry entry is removed once exactly when the run starts
non-terminal and ends terminal, and is never removed otherwise. -/
theorem removalCount_invariant (items : List UpstreamItem) (st : SessionState) :
    removalCount st items =
      if !(isTerminal st) && isTerminal (runItems st items).1 then 1 else 0 := by
  induction items generalizing st with
  | nil => simp [removalCount, runItems]
  | cons i rest ih =>
    cases st <;> cases i <;>
      simp [removalCount, runItems, relayStep, isTerminal, runItems_terminal,
        removalCount_terminal, ih]

/-- C7: Completed, Cancelled and Failed are absorbing (no transition
leaves a terminal state, and no event is emitted from one), and along any
Relay Session run the Session Registry entry is removed exactly once when
the session reaches a terminal state and never before, so no registry
entry outlives its terminal transition. -/
theorem C7_terminal_absorbing_registry (st : SessionState) (i : UpstreamItem)
    (items : List UpstreamItem) :
    (isTerminal st = true → relayStep st i = (st, [])) ∧
    (isTerminal (runItems SessionState.Open items).1 = true →
      removalCount SessionState.Open items = 1) ∧
    (isTerminal (runItems SessionState.Open items).1 = false →
      removalCount SessionState.Open items = 0) := by
  refine ⟨fun h => relayStep_terminal st i h, fun h => ?_, fun h => ?_⟩ <;>
  · have hinv := removalCount_invariant items SessionState.Open
    rw [h] at hinv
    simpa [isTerminal] using hinv

/-- C7 witness: a terminal state absorbs a fragment silently; the
immediately-completing run removes its registry entry exactly once; a run
still in flight has not removed it. -/
theorem C7_terminal_absorbing_registry_witness :
    (relayStep SessionState.Completed (UpstreamItem.fragment "x") =
      (SessionState.Completed, [])) ∧
    removalCount SessionState.Open [UpstreamItem.completed] = 1 ∧
    removalCount SessionState.Open [UpstreamItem.fragment "x"] = 0 :=
  ⟨(C7_terminal_absorbing_registry SessionState.Completed (UpstreamItem.fragment "x")
      []).1 rfl,
   (C7_terminal_absorbing_registry SessionState.Completed (UpstreamItem.fragment "x")
      [UpstreamItem.completed]).2.1 rfl,
   (C7_terminal_absorbing_registry SessionState.Completed (UpstreamItem.fragment "x")
      [UpstreamItem.fragment "x"]).2.2 rfl⟩

/-- C8: an upstream connection error arriving before any fragment was
forwarded is retried exactly once; when the fresh connection also fails
with a connection error the session emits exactly one terminal error
event and ends Failed; and no retry occurs when the first attempt began
with a forwarded fragment. -/
theorem C8_retry_policy (rest rest2 att2 : List UpstreamItem) (s : String) :
    (relayRun (UpstreamItem.connError :: rest) att2).2.2 = 1 ∧
    relayRun (UpstreamItem.connError :: rest) (UpstreamItem.connError :: rest2) =
      (SessionState.Failed, [DownEvent.errorEvent "upstream connection error"], 1) ∧
    (relayRun (UpstreamItem.fragment s :: rest) att2).2.2 = 0 := by
  refine ⟨rfl, ?_, rfl⟩
  simp [relayRun, runItems, relayStep, isTerminal, runItems_terminal]

/-- The JavaScript `String.prototype.startsWith` test used by the frontend
stream reader, expressed through `String.take` so that it is
kernel-evaluable: `s` starts with `p` exactly when its first `p.length`
characters equal `p`. -/
def jsStartsWith (s p : String) : Bool :=
  s.take p.length == p

/-- From src/frontend/app/page.tsx lines 102-119: the inner loop over the
lines of one decoded chunk, carrying the accumulated assistant message. A
line that does not start with `data: ` is skipped; otherwise the payload
is the line with the first six characters removed; the `[DONE]` payload
breaks out of the line loop, abandoning the remaining lines of this chunk
only; an `[ERROR]` payload throws with the text after its first eight
characters; any other payload is appended to the assistant message. -/
def processLines : List String → String → Except String String
  | [], acc => .ok acc
  | line :: rest, acc =>
    if jsStartsWith line "data: " then
      let data := line.drop 6
      if data = "[DONE]" then .ok acc
      else if jsStartsWith data "[ERROR]" then .error (data.drop 8)
      else processLines rest (acc ++ data)
    else processLines rest acc

/-- From src/frontend/app/page.tsx lines 95-120: the outer read loop runs
until the reader reports done, decoding each received chunk, splitting it
on the newline character, and feeding the lines to the inner loop; a
thrown error aborts the whole read. Each chunk is represented by its list
of lines. -/
def processChunks : List (List String) → String → Except String String
  | [], acc => .ok acc
  | chunk :: rest, acc =>
    match processLines chunk acc with
    | .ok acc2 => processChunks rest acc2
    | .error e => .error e

/-- C10: a `data: [DONE]` sentinel line stops only the remaining lines of
its own chunk, for any such remaining lines and any accumulated message,
and the outer loop goes on with the later chunks; concretely, with a
chunk carrying the sentinel and a payload after it followed by a second
chunk carrying another payload, the sentinel-trailing payload of the
first chunk is dropped while the payload of the later chunk is still
appended to the displayed assistant message. -/
theorem C10_done_stops_only_its_chunk (junk : List String)
    (rest : List (List String)) (acc : String) :
    processChunks (("data: [DONE]" :: junk) :: rest) acc = processChunks rest acc ∧
    processChunks [["data: [DONE]", "data: X"], ["data: Y"]] "" = .ok "Y" := by
  constructor
  · rfl
  · rfl

end DeptSite
